import Mathlib

/-!
Verification development for the wechat source-registry tooling
(`scripts/wechat_setup.py`, `wechat/config.py`).

Python dicts are modelled as insertion-ordered association lists
(`List (String × α)`) with `dictInsert` reproducing CPython semantics:
assigning to an existing key replaces its value in place, assigning a
fresh key appends it at the end.  Session dictionaries are association
lists whose values are `Option String` (a JSON value that may be null).
Impure inputs of the scripts (file contents, environment variables,
wall-clock time, collaborator results) are passed explicitly.
-/

/-- A JSON-ish session dictionary: keys mapping to a string or null. -/
abbrev SessDict : Type := List (String × Option String)

/-- CPython dict assignment `d[k] = v`: replace in place if the key is
present, otherwise append at the end. -/
def dictInsert {α : Type} (d : List (String × α)) (k : String) (v : α) :
    List (String × α) :=
  if d.any (fun p => p.1 == k) then
    d.map (fun p => if p.1 == k then (k, v) else p)
  else
    d ++ [(k, v)]

/-- Lookup `d.get(k)` distinguishing a missing key (`none`) from a stored value;
the last binding of a key wins, as in a dict built by repeated assignment. -/
def dget (d : List (String × Option String)) (k : String) :
    Option (Option String) :=
  d.reverse.lookup k

/-- Lookup `d.get(k)` as Python sees it: a missing key and a null value both
come back as `None`. -/
def dgetFlat (d : List (String × Option String)) (k : String) : Option String :=
  (dget d k).join

/-- Python truthiness of a value fetched with `.get`: `None`, a missing
key and the empty string are falsy. -/
def truthy : Option (Option String) → Bool
  | some (some s) => !(s == "")
  | _ => false

/-- Python truthiness of the dict itself: non-empty. -/
def dictNonempty (d : List (String × Option String)) : Bool := !d.isEmpty

/-- Dict merge `old.update(new)`. -/
def dupdate (old new : List (String × Option String)) :
    List (String × Option String) :=
  new.foldl (fun d p => dictInsert d p.1 p.2) old

/-- The usability test of `ensure_session_interactive`:
`session.get("token") or session.get("cookies_str")` is truthy. -/
def session_usable (d : SessDict) : Bool :=
  truthy (dget d "token") || truthy (dget d "cookies_str")

/-! ## Session provider (`scripts/wechat_setup.py`, `ensure_session_interactive`) -/

/-- The impure surroundings of `ensure_session_interactive`, passed
explicitly: the module-level `WECHAT_SESSION`, the parse result of
`cfg/cookies.json` (`none` when the file is missing or unreadable, which
is what `load_local_session` collapses to `None`), whether the
`wechat_auth` collaborator is importable and has `get_cookies`, and what
`get_cookies()` returns when called (`none` for a `None` result). -/
structure SessionEnv where
  wechat_session : SessDict
  local_session : Option SessDict
  auth_available : Bool
  login_result : Option SessDict

inductive SessionResult where
  | ok (s : SessDict)
  | noSession
deriving DecidableEq, Repr

/-- Result of a run of `ensure_session_interactive` together with which
collaborators were touched on the way: whether `load_local_session`
(the credential file) was consulted, and whether
`wechat_auth.get_cookies` (interactive login) was invoked. -/
structure SessionOutcome where
  result : SessionResult
  fileConsulted : Bool
  loginInvoked : Bool
deriving DecidableEq, Repr

/-- The tail of `ensure_session_interactive` after the config-session and
cookie-file checks failed: try Selenium login if available, else raise. -/
def attempt_login (env : SessionEnv) : SessionOutcome :=
  if env.auth_available then
    match env.login_result with
    | some data =>
        if dictNonempty data then ⟨SessionResult.ok data, true, true⟩
        else ⟨SessionResult.noSession, true, true⟩
    | none => ⟨SessionResult.noSession, true, true⟩
  else ⟨SessionResult.noSession, true, false⟩

/-- Function `ensure_session_interactive`: prefer the usable `WECHAT_SESSION`
loaded from `config/sources/wechat.json`, then a truthy dict from
`cfg/cookies.json`, then interactive login; raising `RuntimeError`
(modelled as `noSession`) when everything fails. -/
def ensure_session_interactive (env : SessionEnv) : SessionOutcome :=
  if dictNonempty env.wechat_session && session_usable env.wechat_session then
    ⟨SessionResult.ok env.wechat_session, false, false⟩
  else
    match env.local_session with
    | some sess =>
        if dictNonempty sess then ⟨SessionResult.ok sess, true, false⟩
        else attempt_login env
    | none => attempt_login env

/-! ## Source registry (`scripts/wechat_setup.py`) -/

/-- The shape of a source record as built by `build_source_entry` and as
persisted in the `sources` list of `config/sources/wechat.json`. -/
structure SourceRecord where
  id : String
  name : String
  biz : String
  wx_cfg : SessDict
  count : Int
  created_at : Int
deriving DecidableEq, Repr

/-- Every pair of a registry dict is keyed by its record's `id`. -/
def WellKeyed (d : List (String × SourceRecord)) : Prop :=
  ∀ p ∈ d, p.1 = p.2.id

/-- The document written by `merge_wechat_config`: a top-level `session`
dict next to the `sources` list. -/
structure MergedDoc where
  session : SessDict
  sources : List SourceRecord
deriving DecidableEq, Repr

/-- The dict `existing` of `merge_wechat_config`: first the comprehension
`{s.get("id"): s for s in data.get("sources", [])}`, then the loop
`existing[s["id"]] = s` over the new sources. -/
def mergeDict (data_sources new_sources : List SourceRecord) :
    List (String × SourceRecord) :=
  new_sources.foldl (fun d s => dictInsert d s.id s)
    (data_sources.foldl (fun d s => dictInsert d s.id s) [])

/-- Function `merge_wechat_config`, on the pure data it manipulates: the sources
read from the existing document, the new sources, and the session; it
produces the document that is serialized back to disk. -/
def merge_wechat_config (data_sources new_sources : List SourceRecord)
    (session : SessDict) : MergedDoc :=
  { session := [("token", dgetFlat session "token"),
                ("cookies_str", dgetFlat session "cookies_str"),
                ("user_agent", dgetFlat session "user_agent")],
    sources := (mergeDict data_sources new_sources).map Prod.snd }

/-- A chain of `merge_wechat_config` runs: each run re-reads the sources
persisted by the previous one. -/
def merge_seq (init : List SourceRecord) (batches : List (List SourceRecord))
    (sess : SessDict) : List SourceRecord :=
  batches.foldl (fun cur batch => (merge_wechat_config cur batch sess).sources) init

/-- Function `build_source_entry(name, biz, wx_cfg, count)`; `int(time.time())` is
passed in as `now`. -/
def build_source_entry (name biz : String) (wx_cfg : SessDict)
    (count : Int) (now : Int) : SourceRecord :=
  { id := "wechat_" ++ biz,
    name := name,
    biz := biz,
    wx_cfg := [("token", dgetFlat wx_cfg "token"),
               ("cookies_str", dgetFlat wx_cfg "cookies_str"),
               ("user_agent", dgetFlat wx_cfg "user_agent")],
    count := count,
    created_at := now }

/-! ## Crawl orchestration (`maybe_crawl_sources`) -/

/-- The per-source outcome printed by `maybe_crawl_sources`: an article
count on success, the caught exception's message on failure. -/
inductive CrawlResult where
  | success (items : Nat)
  | failure (err : String)
deriving DecidableEq, Repr

/-- Function `maybe_crawl_sources`: loop over the ids, invoke the fetch
collaborator (`crawl_wechat_source`, passed explicitly as `fetch`), and
record each id's outcome; a raised exception is caught inside the loop
body for that id alone. -/
def maybe_crawl_sources (fetch : String → Except String Nat)
    (source_ids : List String) : List (String × CrawlResult) :=
  source_ids.map (fun sid =>
    (sid, match fetch sid with
          | Except.ok items => CrawlResult.success items
          | Except.error exc => CrawlResult.failure exc))

/-! ## Module configuration (`wechat/config.py`) -/

/-- The ASCII whitespace stripped by Python's `str.strip()`. -/
def pyWhitespace (c : Char) : Bool :=
  c = ' ' || c = '\t' || c = '\n' || c = '\r' || c = '\x0B' || c = '\x0C'

/-- Python `value.strip()`. -/
def pyStrip (s : String) : String :=
  String.mk (((s.toList.dropWhile pyWhitespace).reverse.dropWhile pyWhitespace).reverse)

/-- Python `value.lower()` (ASCII letters). -/
def pyLower (s : String) : String := String.mk (s.toList.map Char.toLower)

/-- Function `_get_bool_env(name, default)`: the environment is passed in as the
`getenv` function. -/
def _get_bool_env (getenv : String → Option String) (name : String)
    (default : Bool) : Bool :=
  match getenv name with
  | none => default
  | some value => [("1" : String), "true", "yes", "on"].contains (pyLower (pyStrip value))

/-- Python `int()` on a string: strip, optional sign, decimal digits. -/
def pyInt (s : String) : Except String Int :=
  match (pyStrip s).toList with
  | '-' :: cs =>
      if !cs.isEmpty && cs.all Char.isDigit then
        Except.ok (-(Int.ofNat (cs.foldl (fun n c => n * 10 + (c.toNat - '0'.toNat)) 0)))
      else Except.error "invalid literal for int"
  | '+' :: cs =>
      if !cs.isEmpty && cs.all Char.isDigit then
        Except.ok (Int.ofNat (cs.foldl (fun n c => n * 10 + (c.toNat - '0'.toNat)) 0))
      else Except.error "invalid literal for int"
  | cs =>
      if !cs.isEmpty && cs.all Char.isDigit then
        Except.ok (Int.ofNat (cs.foldl (fun n c => n * 10 + (c.toNat - '0'.toNat)) 0))
      else Except.error "invalid literal for int"

/-- The module-level constants of `wechat/config.py`. -/
structure WechatModuleConfig where
  CRAWL_INTERVAL : Except String Int
  REQUEST_TIMEOUT : Int
  MAX_RETRIES : Int
  AUTO_CRAWL_ENABLED : Bool
  VECTOR_SYNC_ENABLED : Bool
deriving Repr

/-- The top-level assignments of `wechat/config.py`, evaluated against an
explicit environment:
`CRAWL_INTERVAL = int(os.getenv("CRAWL_INTERVAL", "3600"))`,
`REQUEST_TIMEOUT = 30`, `MAX_RETRIES = 3`, and the two
`_get_bool_env` flags. -/
def loadModuleConfig (getenv : String → Option String) : WechatModuleConfig :=
  { CRAWL_INTERVAL := pyInt ((getenv "CRAWL_INTERVAL").getD "3600"),
    REQUEST_TIMEOUT := 30,
    MAX_RETRIES := 3,
    AUTO_CRAWL_ENABLED := _get_bool_env getenv "AUTO_CRAWL_ENABLED" true,
    VECTOR_SYNC_ENABLED := _get_bool_env getenv "VECTOR_SYNC_ENABLED" true }

/-- The parsed content of `config/sources/wechat.json` when `json.load`
succeeds: the `"sources"` and `"session"` keys may each be absent. -/
structure WechatDoc where
  sources : Option (List SourceRecord)
  session : Option SessDict
deriving DecidableEq, Repr

/-- The state of the backing file, as the two loaders observe it. -/
inductive ConfigFS where
  | dirMissing
  | fileMissing
  | readError
  | ok (doc : WechatDoc)
deriving DecidableEq, Repr

def isBadFs : ConfigFS → Bool
  | ConfigFS.ok _ => false
  | _ => true

/-- The module-level mutable state of `wechat/config.py`. -/
structure ConfigState where
  WECHAT_SOURCES : List SourceRecord
  WECHAT_SESSION : SessDict
deriving DecidableEq, Repr

/-- Function `load_configurations()`: missing directory, missing file and any
read/parse exception all print a warning and leave the globals alone;
a parsed document extends `WECHAT_SOURCES` and updates
`WECHAT_SESSION` key-wise. -/
def load_configurations (fs : ConfigFS) (st : ConfigState) : ConfigState :=
  match fs with
  | ConfigFS.dirMissing => st
  | ConfigFS.fileMissing => st
  | ConfigFS.readError => st
  | ConfigFS.ok doc =>
      { WECHAT_SOURCES := st.WECHAT_SOURCES ++ doc.sources.getD [],
        WECHAT_SESSION :=
          match doc.session with
          | some s => dupdate st.WECHAT_SESSION s
          | none => st.WECHAT_SESSION }

/-- The read phase of `merge_wechat_config`: a missing file or a failed
`json.load` yields `{"sources": []}`, and `data.get("sources", [])`
defaults an absent key to the empty list. -/
def read_existing_sources : ConfigFS → List SourceRecord
  | ConfigFS.ok doc => doc.sources.getD []
  | _ => []

/-- Iteration: `k` successive calls of `load_configurations` against the
same file state. -/
def iterate_load (fs : ConfigFS) : Nat → ConfigState → ConfigState
  | 0, st => st
  | k + 1, st => iterate_load fs k (load_configurations fs st)

/-- Iteration of `k` successive `WECHAT_SESSION.update(s)` steps. -/
def updN (s : SessDict) : Nat → SessDict → SessDict
  | 0, d => d
  | k + 1, d => updN s k (dupdate d s)

/-! ## Helper lemmas -/

theorem dget_nil (k : String) : dget [] k = none := rfl

theorem session_usable_nil : session_usable [] = false := rfl

theorem dictNonempty_of_usable (d : SessDict) (h : session_usable d = true) :
    dictNonempty d = true := by
  cases d with
  | nil => simp [session_usable, dget, truthy] at h
  | cons p rest => rfl

theorem dictInsert_keys_of_mem {α : Type} (d : List (String × α)) (k : String)
    (v : α) (h : d.any (fun p => p.1 == k) = true) :
    (dictInsert d k v).map Prod.fst = d.map Prod.fst := by
  unfold dictInsert
  rw [if_pos h, List.map_map]
  apply List.map_congr_left
  intro p _
  by_cases hp : p.1 = k
  · simp [hp]
  · simp [hp]

theorem dictInsert_keysNodup {α : Type} (d : List (String × α)) (k : String)
    (v : α) (h : (d.map Prod.fst).Nodup) :
    ((dictInsert d k v).map Prod.fst).Nodup := by
  by_cases hmem : d.any (fun p => p.1 == k) = true
  · rw [dictInsert_keys_of_mem d k v hmem]
    exact h
  · unfold dictInsert
    rw [if_neg hmem, List.map_append]
    have hk : k ∉ d.map Prod.fst := by
      intro hc
      apply hmem
      rw [List.any_eq_true]
      obtain ⟨p, hp, hpk⟩ := List.mem_map.mp hc
      exact ⟨p, hp, by simp [hpk]⟩
    simp only [List.map_cons, List.map_nil]
    exact List.Nodup.append h (List.nodup_singleton k)
      (by simpa [List.disjoint_singleton] using hk)

theorem dictInsert_wellKeyed (d : List (String × SourceRecord))
    (s : SourceRecord) (h : WellKeyed d) : WellKeyed (dictInsert d s.id s) := by
  intro p hp
  unfold dictInsert at hp
  by_cases hmem : d.any (fun q => q.1 == s.id) = true
  · rw [if_pos hmem] at hp
    obtain ⟨q, hq, hfq⟩ := List.mem_map.mp hp
    by_cases hqk : q.1 = s.id
    · simp [hqk] at hfq
      rw [← hfq]
    · simp [hqk] at hfq
      rw [← hfq]
      exact h q hq
  · rw [if_neg hmem] at hp
    rcases List.mem_append.mp hp with hin | hin
    · exact h p hin
    · simp at hin
      rw [hin]

theorem mapReplace_filter {α : Type} (d : List (String × α)) (k : String)
    (v : α) (hnd : (d.map Prod.fst).Nodup)
    (hmem : d.any (fun p => p.1 == k) = true) :
    ((d.map (fun p => if p.1 == k then (k, v) else p)).filter
      (fun p => p.1 == k)) = [(k, v)] := by
  induction d with
  | nil => simp at hmem
  | cons p rest ih =>
    simp only [List.map_cons, List.map_nil] at hnd
    have hnd' : (rest.map Prod.fst).Nodup := hnd.of_cons
    by_cases hp : p.1 = k
    · have hknotin : ∀ q ∈ rest, ¬ q.1 = k := by
        intro q hq hqk
        have : p.1 ∈ rest.map Prod.fst := by
          rw [hp, ← hqk]
          exact List.mem_map.mpr ⟨q, hq, rfl⟩
        exact (List.nodup_cons.mp hnd).1 this
      have hmap : (rest.map (fun q => if q.1 == k then (k, v) else q)) = rest := by
        calc rest.map (fun q => if q.1 == k then (k, v) else q)
            = rest.map id := List.map_congr_left (fun q hq => by simp [hknotin q hq])
          _ = rest := List.map_id rest
      have hrest : (rest.filter (fun q => q.1 == k)) = [] := by
        rw [List.filter_eq_nil_iff]
        intro q hq
        simp [hknotin q hq]
      simp only [List.map_cons, hmap]
      rw [if_pos (by simp [hp] : (p.1 == k) = true)]
      rw [List.filter_cons]
      rw [if_pos (by simp : (((k, v) : String × α).1 == k) = true)]
      rw [hrest]
    · have hmem' : rest.any (fun q => q.1 == k) = true := by
        rw [List.any_eq_true] at hmem ⊢
        obtain ⟨q, hq, hqk⟩ := hmem
        rcases List.mem_cons.mp hq with hq1 | hq1
        · exfalso
          apply hp
          rw [hq1] at hqk
          exact eq_of_beq hqk
        · exact ⟨q, hq1, hqk⟩
      simp only [List.map_cons]
      rw [if_neg (by simp [hp] : ¬ ((p.1 == k) = true))]
      rw [List.filter_cons]
      rw [if_neg (by simp [hp] : ¬ ((p.1 == k) = true))]
      exact ih hnd' hmem'

theorem dictInsert_filter_key {α : Type} (d : List (String × α)) (k : String)
    (v : α) (h : (d.map Prod.fst).Nodup) :
    ((dictInsert d k v).filter (fun p => p.1 == k)) = [(k, v)] := by
  by_cases hmem : d.any (fun p => p.1 == k) = true
  · unfold dictInsert
    rw [if_pos hmem]
    exact mapReplace_filter d k v h hmem
  · unfold dictInsert
    rw [if_neg hmem, List.filter_append]
    have hnil : d.filter (fun p => p.1 == k) = [] := by
      rw [List.filter_eq_nil_iff]
      intro p hp hpk
      apply hmem
      rw [List.any_eq_true]
      exact ⟨p, hp, hpk⟩
    simp [hnil]

theorem values_filter_eq (d : List (String × SourceRecord)) (k : String)
    (hw : WellKeyed d) :
    ((d.map Prod.snd).filter (fun r => r.id == k)) =
      (d.filter (fun p => p.1 == k)).map Prod.snd := by
  induction d with
  | nil => rfl
  | cons p rest ih =>
    have hp : p.1 = p.2.id := hw p (List.mem_cons_self p rest)
    have hw' : WellKeyed rest := fun q hq => hw q (List.mem_cons_of_mem p hq)
    simp only [List.map_cons, List.filter_cons]
    by_cases hid : p.2.id = k
    · rw [if_pos (by simp [hid]), if_pos (by simp [hp, hid])]
      simp [ih hw']
    · rw [if_neg (by simp [hid]), if_neg (by simp [hp, hid])]
      exact ih hw'

theorem foldl_dictInsert_keysNodup (srcs : List SourceRecord)
    (init : List (String × SourceRecord))
    (h : (init.map Prod.fst).Nodup) :
    ((srcs.foldl (fun d s => dictInsert d s.id s) init).map Prod.fst).Nodup := by
  induction srcs generalizing init with
  | nil => exact h
  | cons s rest ih =>
    exact ih (dictInsert init s.id s) (dictInsert_keysNodup init s.id s h)

theorem foldl_dictInsert_wellKeyed (srcs : List SourceRecord)
    (init : List (String × SourceRecord)) (h : WellKeyed init) :
    WellKeyed (srcs.foldl (fun d s => dictInsert d s.id s) init) := by
  induction srcs generalizing init with
  | nil => exact h
  | cons s rest ih =>
    exact ih (dictInsert init s.id s) (dictInsert_wellKeyed init s h)

theorem mergeDict_keysNodup (ds ns : List SourceRecord) :
    ((mergeDict ds ns).map Prod.fst).Nodup := by
  unfold mergeDict
  exact foldl_dictInsert_keysNodup ns _
    (foldl_dictInsert_keysNodup ds [] (by simp))

theorem mergeDict_wellKeyed (ds ns : List SourceRecord) :
    WellKeyed (mergeDict ds ns) := by
  unfold mergeDict
  exact foldl_dictInsert_wellKeyed ns _
    (foldl_dictInsert_wellKeyed ds [] (by intro p hp; simp at hp))

theorem merge_single_filter (ds : List SourceRecord) (e : SourceRecord)
    (sess : SessDict) :
    (((merge_wechat_config ds [e] sess).sources).filter
      (fun r => r.id == e.id)) = [e] := by
  have hbase_nd : ((ds.foldl (fun d s => dictInsert d s.id s) []).map Prod.fst).Nodup :=
    foldl_dictInsert_keysNodup ds [] (by simp)
  have hw : WellKeyed (mergeDict ds [e]) := mergeDict_wellKeyed ds [e]
  have hdict : mergeDict ds [e] =
      dictInsert (ds.foldl (fun d s => dictInsert d s.id s) []) e.id e := rfl
  unfold merge_wechat_config
  simp only
  rw [values_filter_eq _ _ hw, hdict,
    dictInsert_filter_key _ _ _ hbase_nd]
  rfl

theorem merge_sources_id_nodup (ds ns : List SourceRecord) (sess : SessDict) :
    (((merge_wechat_config ds ns sess).sources).map (fun r => r.id)).Nodup := by
  have hw := mergeDict_wellKeyed ds ns
  have hn := mergeDict_keysNodup ds ns
  unfold merge_wechat_config
  simp only [List.map_map]
  have : ((mergeDict ds ns).map (fun p => p.2.id)) =
      (mergeDict ds ns).map Prod.fst := by
    apply List.map_congr_left
    intro p hp
    exact (hw p hp).symm
  have hcomp : ((fun r : SourceRecord => r.id) ∘ Prod.snd) =
      fun p : String × SourceRecord => p.2.id := rfl
  rw [hcomp, this]
  exact hn

theorem merge_seq_preserves_nodup (batches : List (List SourceRecord))
    (sess : SessDict) :
    ∀ cur : List SourceRecord, ((cur.map (fun r => r.id)).Nodup) →
      (((merge_seq cur batches sess)).map (fun r => r.id)).Nodup := by
  induction batches with
  | nil =>
    intro cur h
    exact h
  | cons b bs ih =>
    intro cur h
    have hstep : merge_seq cur (b :: bs) sess =
        merge_seq (merge_wechat_config cur b sess).sources bs sess := rfl
    rw [hstep]
    exact ih _ (merge_sources_id_nodup cur b sess)

/-! ## Claim theorems -/

/-- C1: merging an entry and then a second entry carrying the same id
(in particular, the same `(id, fields)` twice) through
`merge_wechat_config` leaves exactly one record with that id in the
persisted sources, and that record is the one from the second merge:
last write wins on the full field set. -/
theorem c1_merge_twice_last_wins (st : List SourceRecord)
    (e1 e2 : SourceRecord) (sess1 sess2 : SessDict) (h : e1.id = e2.id) :
    (((merge_wechat_config
        (merge_wechat_config st [e1] sess1).sources [e2] sess2).sources).filter
      (fun r => r.id == e2.id)) = [e2] :=
  merge_single_filter (merge_wechat_config st [e1] sess1).sources e2 sess2

theorem c1_witness :
    (⟨"wechat_b1", "A", "b1", [], 5, 0⟩ : SourceRecord).id =
      (⟨"wechat_b1", "A-renamed", "b1", [], 10, 1⟩ : SourceRecord).id
    ∧ (((merge_wechat_config
          (merge_wechat_config []
            [⟨"wechat_b1", "A", "b1", [], 5, 0⟩] []).sources
          [⟨"wechat_b1", "A-renamed", "b1", [], 10, 1⟩] []).sources).filter
        (fun r => r.id == "wechat_b1")) =
      [⟨"wechat_b1", "A-renamed", "b1", [], 10, 1⟩] :=
  ⟨rfl, c1_merge_twice_last_wins [] ⟨"wechat_b1", "A", "b1", [], 5, 0⟩
    ⟨"wechat_b1", "A-renamed", "b1", [], 10, 1⟩ [] [] rfl⟩

/-- C2: when the persisted `WECHAT_SESSION` is usable (its `token` or its
`cookies_str` is a non-empty string), `ensure_session_interactive`
returns exactly that session without consulting `cfg/cookies.json` and
without invoking the interactive-login collaborator. -/
theorem c2_persisted_session_priority (env : SessionEnv)
    (h : session_usable env.wechat_session = true) :
    ensure_session_interactive env =
      ⟨SessionResult.ok env.wechat_session, false, false⟩ := by
  unfold ensure_session_interactive
  rw [dictNonempty_of_usable _ h, h]
  simp

theorem c2_witness :
    session_usable [("token", some "tok")] = true
    ∧ ensure_session_interactive
        ⟨[("token", some "tok")], some [("cookies_str", some "x")], true,
          some [("token", some "y")]⟩ =
      ⟨SessionResult.ok [("token", some "tok")], false, false⟩ :=
  ⟨rfl, c2_persisted_session_priority
    ⟨[("token", some "tok")], some [("cookies_str", some "x")], true,
      some [("token", some "y")]⟩ rfl⟩

/-- C3: with an unusable persisted session, a missing or unparseable
credential file, and an interactive-login collaborator that is
unavailable or yields nothing (returns `None` or an empty dict),
`ensure_session_interactive` ends in the `RuntimeError` branch
(`noSession`) instead of returning any session. -/
theorem c3_no_session_available (env : SessionEnv)
    (h1 : session_usable env.wechat_session = false)
    (h2 : env.local_session = none)
    (h3 : env.auth_available = false ∨ env.login_result = none
          ∨ env.login_result = some []) :
    (ensure_session_interactive env).result = SessionResult.noSession := by
  have hstep : ensure_session_interactive env = attempt_login env := by
    unfold ensure_session_interactive
    rw [h1, h2, Bool.and_false]
    simp
  rw [hstep]
  unfold attempt_login
  rcases h3 with h | h | h
  · rw [h]
    simp
  · rw [h]
    by_cases ha : env.auth_available <;> simp [ha]
  · rw [h]
    by_cases ha : env.auth_available <;> simp [ha, dictNonempty]

theorem c3_witness :
    session_usable ([("token", some "")] : SessDict) = false
    ∧ (ensure_session_interactive
        ⟨[("token", some "")], none, false, none⟩).result =
      SessionResult.noSession :=
  ⟨rfl, c3_no_session_available ⟨[("token", some "")], none, false, none⟩
    rfl rfl (Or.inl rfl)⟩

/-- C4: after any non-empty chain of `merge_wechat_config` runs, starting
from any persisted sources list (duplicate ids allowed: the loading dict
comprehension keeps only the last record per id), the resulting sources
list has pairwise distinct ids. -/
theorem c4_ids_nodup_after_merges (init : List SourceRecord)
    (batches : List (List SourceRecord)) (sess : SessDict)
    (h : batches ≠ []) :
    (((merge_seq init batches sess)).map (fun r => r.id)).Nodup := by
  match batches with
  | [] => exact absurd rfl h
  | b :: bs =>
    have hstep : merge_seq init (b :: bs) sess =
        merge_seq (merge_wechat_config init b sess).sources bs sess := rfl
    rw [hstep]
    exact merge_seq_preserves_nodup bs sess _ (merge_sources_id_nodup init b sess)

theorem c4_witness :
    ([[(⟨"wechat_b2", "B", "b2", [], 1, 2⟩ : SourceRecord)]] :
        List (List SourceRecord)) ≠ []
    ∧ (((merge_seq
          [⟨"wechat_b1", "A", "b1", [], 5, 0⟩, ⟨"wechat_b1", "A", "b1", [], 5, 1⟩]
          [[⟨"wechat_b2", "B", "b2", [], 1, 2⟩]] [])).map (fun r => r.id)).Nodup :=
  ⟨by simp, c4_ids_nodup_after_merges
    [⟨"wechat_b1", "A", "b1", [], 5, 0⟩, ⟨"wechat_b1", "A", "b1", [], 5, 1⟩]
    [[⟨"wechat_b2", "B", "b2", [], 1, 2⟩]] [] (by simp)⟩

/-- C5: when the backing file's directory or the file is missing, or its
content is unreadable/malformed JSON, neither loader escalates: the read
phase of `merge_wechat_config` falls back to the empty document (no
sources), making the merge behave exactly as on an empty registry, and
`load_configurations` leaves the module state untouched. -/
theorem c5_lenient_load (fs : ConfigFS) (h : isBadFs fs = true) :
    read_existing_sources fs = []
    ∧ (∀ st, load_configurations fs st = st)
    ∧ (∀ ns sess, merge_wechat_config (read_existing_sources fs) ns sess =
        merge_wechat_config [] ns sess) := by
  cases fs with
  | ok doc => simp [isBadFs] at h
  | dirMissing => exact ⟨rfl, fun st => rfl, fun ns sess => rfl⟩
  | fileMissing => exact ⟨rfl, fun st => rfl, fun ns sess => rfl⟩
  | readError => exact ⟨rfl, fun st => rfl, fun ns sess => rfl⟩

theorem c5_witness :
    isBadFs ConfigFS.readError = true
    ∧ read_existing_sources ConfigFS.readError = []
    ∧ load_configurations ConfigFS.readError
        ⟨[⟨"wechat_b1", "A", "b1", [], 5, 0⟩], [("token", some "t")]⟩ =
      ⟨[⟨"wechat_b1", "A", "b1", [], 5, 0⟩], [("token", some "t")]⟩
    ∧ merge_wechat_config (read_existing_sources ConfigFS.readError)
        [⟨"wechat_b2", "B", "b2", [], 1, 2⟩] [] =
      merge_wechat_config [] [⟨"wechat_b2", "B", "b2", [], 1, 2⟩] [] :=
  ⟨rfl, (c5_lenient_load ConfigFS.readError rfl).1,
    (c5_lenient_load ConfigFS.readError rfl).2.1 _,
    (c5_lenient_load ConfigFS.readError rfl).2.2 _ _⟩

/-- C6: `maybe_crawl_sources` visits every id in order; when the fetch
collaborator fails for exactly one id `bad` and succeeds for every other
id in the list, each other id still gets a success outcome and only
`bad` gets a failure outcome. -/
theorem c6_failure_isolation (fetch : String → Except String Nat)
    (ids : List String) (bad : String)
    (hbad : ∃ e, fetch bad = Except.error e)
    (hok : ∀ i ∈ ids, i ≠ bad → ∃ n, fetch i = Except.ok n) :
    ((maybe_crawl_sources fetch ids).map Prod.fst = ids)
    ∧ ∀ p ∈ maybe_crawl_sources fetch ids,
        (p.1 ≠ bad → ∃ n, p.2 = CrawlResult.success n)
        ∧ (p.1 = bad → ∃ e, p.2 = CrawlResult.failure e) := by
  constructor
  · unfold maybe_crawl_sources
    rw [List.map_map]
    exact List.map_id ids
  · intro p hp
    unfold maybe_crawl_sources at hp
    obtain ⟨sid, hsid, hpe⟩ := List.mem_map.mp hp
    constructor
    · intro hne
      have hsne : sid ≠ bad := by
        rw [← hpe] at hne
        exact hne
      obtain ⟨n, hn⟩ := hok sid hsid hsne
      rw [← hpe]
      exact ⟨n, by simp [hn]⟩
    · intro heq
      have hsb : sid = bad := by
        rw [← hpe] at heq
        exact heq
      obtain ⟨e, he⟩ := hbad
      rw [← hpe]
      exact ⟨e, by simp [hsb, he]⟩

theorem c6_witness :
    ((fun sid => if sid == ("b" : String) then
        (Except.error "boom" : Except String Nat) else Except.ok 4) "b" =
        Except.error "boom")
    ∧ ((maybe_crawl_sources
        (fun sid => if sid == ("b" : String) then
          (Except.error "boom" : Except String Nat) else Except.ok 4)
        ["a", "b", "c"]).map Prod.fst = ["a", "b", "c"])
    ∧ maybe_crawl_sources
        (fun sid => if sid == ("b" : String) then
          (Except.error "boom" : Except String Nat) else Except.ok 4)
        ["a", "b", "c"] =
      [("a", CrawlResult.success 4), ("b", CrawlResult.failure "boom"),
       ("c", CrawlResult.success 4)] :=
  ⟨rfl,
   (c6_failure_isolation
      (fun sid => if sid == ("b" : String) then
        (Except.error "boom" : Except String Nat) else Except.ok 4)
      ["a", "b", "c"] "b" ⟨"boom", rfl⟩
      (fun i _ hne => ⟨4, by
        have : (i == ("b" : String)) = false := by
          simp [hne]
        simp [this]⟩)).1,
   rfl⟩

/-- C7: `build_source_entry` is a pure function of its inputs (with
`int(time.time())` passed in explicitly): its output depends on the
session dict only through the `token`, `cookies_str` and `user_agent`
values it snapshots, its `id` is the fixed prefix `"wechat_"` followed by
the platform key `biz`, and its `wx_cfg` is exactly the three-field
snapshot of the session. -/
theorem c7_build_entry_pure (name biz : String) (cfg cfg2 : SessDict)
    (count now : Int)
    (h1 : dgetFlat cfg "token" = dgetFlat cfg2 "token")
    (h2 : dgetFlat cfg "cookies_str" = dgetFlat cfg2 "cookies_str")
    (h3 : dgetFlat cfg "user_agent" = dgetFlat cfg2 "user_agent") :
    build_source_entry name biz cfg count now =
      build_source_entry name biz cfg2 count now
    ∧ (build_source_entry name biz cfg count now).id = "wechat_" ++ biz
    ∧ (build_source_entry name biz cfg count now).wx_cfg =
        [("token", dgetFlat cfg "token"),
         ("cookies_str", dgetFlat cfg "cookies_str"),
         ("user_agent", dgetFlat cfg "user_agent")] := by
  refine ⟨?_, rfl, rfl⟩
  unfold build_source_entry
  rw [h1, h2, h3]

theorem c7_witness :
    dgetFlat [("token", some "t"), ("extra", some "x")] "token" =
      dgetFlat [("cookies_str", none), ("token", some "t")] "token"
    ∧ dgetFlat [("token", some "t"), ("extra", some "x")] "cookies_str" =
      dgetFlat [("cookies_str", none), ("token", some "t")] "cookies_str"
    ∧ dgetFlat [("token", some "t"), ("extra", some "x")] "user_agent" =
      dgetFlat [("cookies_str", none), ("token", some "t")] "user_agent"
    ∧ build_source_entry "名" "b9" [("token", some "t"), ("extra", some "x")] 10 99 =
      build_source_entry "名" "b9" [("cookies_str", none), ("token", some "t")] 10 99
    ∧ (build_source_entry "名" "b9"
        [("token", some "t"), ("extra", some "x")] 10 99).id = "wechat_" ++ "b9"
    ∧ (build_source_entry "名" "b9"
        [("token", some "t"), ("extra", some "x")] 10 99).wx_cfg =
      [("token", some "t"), ("cookies_str", none), ("user_agent", none)] :=
  ⟨rfl, rfl, rfl,
   (c7_build_entry_pure "名" "b9" [("token", some "t"), ("extra", some "x")]
      [("cookies_str", none), ("token", some "t")] 10 99 rfl rfl rfl).1,
   (c7_build_entry_pure "名" "b9" [("token", some "t"), ("extra", some "x")]
      [("cookies_str", none), ("token", some "t")] 10 99 rfl rfl rfl).2.1,
   rfl⟩

/-- C8 counterexample: the per-request timeout and the retry count are
insensitive to the environment — even with `REQUEST_TIMEOUT=99` and
`MAX_RETRIES=7` exported, the module still evaluates to 30 and 3,
because `wechat/config.py` assigns them as literals; so they are
hardcoded, not configuration. -/
theorem c8_counterexample :
    (loadModuleConfig (fun k => if k == "REQUEST_TIMEOUT" then some "99"
      else if k == "MAX_RETRIES" then some "7" else none)).REQUEST_TIMEOUT = 30
    ∧ (loadModuleConfig (fun k => if k == "REQUEST_TIMEOUT" then some "99"
      else if k == "MAX_RETRIES" then some "7" else none)).MAX_RETRIES = 3 :=
  ⟨rfl, rfl⟩

/-- C8 (amended): the per-request timeout and the maximum retry count are
hardcoded module constants 30 and 3, identical under every environment;
the crawl interval defaults to 3600 seconds (one hour) and the
auto-crawl and vector-sync flags default to true when their environment
variables are unset. -/
theorem c8_config_defaults (getenv : String → Option String)
    (h1 : getenv "CRAWL_INTERVAL" = none)
    (h2 : getenv "AUTO_CRAWL_ENABLED" = none)
    (h3 : getenv "VECTOR_SYNC_ENABLED" = none) :
    (∀ getenv2 : String → Option String,
        (loadModuleConfig getenv2).REQUEST_TIMEOUT = 30
        ∧ (loadModuleConfig getenv2).MAX_RETRIES = 3)
    ∧ (loadModuleConfig getenv).CRAWL_INTERVAL = Except.ok 3600
    ∧ (loadModuleConfig getenv).AUTO_CRAWL_ENABLED = true
    ∧ (loadModuleConfig getenv).VECTOR_SYNC_ENABLED = true := by
  refine ⟨fun getenv2 => ⟨rfl, rfl⟩, ?_, ?_, ?_⟩
  · show pyInt ((getenv "CRAWL_INTERVAL").getD "3600") = Except.ok 3600
    rw [h1]
    rfl
  · show _get_bool_env getenv "AUTO_CRAWL_ENABLED" true = true
    unfold _get_bool_env
    rw [h2]
  · show _get_bool_env getenv "VECTOR_SYNC_ENABLED" true = true
    unfold _get_bool_env
    rw [h3]

theorem c8_witness :
    ((fun _ : String => (none : Option String)) "CRAWL_INTERVAL" = none)
    ∧ (loadModuleConfig (fun _ => none)).REQUEST_TIMEOUT = 30
    ∧ (loadModuleConfig (fun _ => none)).MAX_RETRIES = 3
    ∧ (loadModuleConfig (fun _ => none)).CRAWL_INTERVAL = Except.ok 3600
    ∧ (loadModuleConfig (fun _ => none)).AUTO_CRAWL_ENABLED = true
    ∧ (loadModuleConfig (fun _ => none)).VECTOR_SYNC_ENABLED = true :=
  ⟨rfl,
   (c8_config_defaults (fun _ => none) rfl rfl rfl).1 (fun _ => none) |>.1,
   (c8_config_defaults (fun _ => none) rfl rfl rfl).1 (fun _ => none) |>.2,
   (c8_config_defaults (fun _ => none) rfl rfl rfl).2.1,
   (c8_config_defaults (fun _ => none) rfl rfl rfl).2.2.1,
   (c8_config_defaults (fun _ => none) rfl rfl rfl).2.2.2⟩

/-- C9: `_get_bool_env` returns the default exactly when the variable is
unset; for any set value it returns true iff the value, stripped and
lowercased, is one of `"1"`, `"true"`, `"yes"`, `"on"` — any other set
value yields false regardless of the default. -/
theorem c9_bool_env (getenv : String → Option String) (name : String)
    (default : Bool) :
    (∀ value, getenv name = some value →
      (_get_bool_env getenv name default = true ↔
        (pyLower (pyStrip value) = "1" ∨ pyLower (pyStrip value) = "true"
          ∨ pyLower (pyStrip value) = "yes" ∨ pyLower (pyStrip value) = "on")))
    ∧ (getenv name = none → _get_bool_env getenv name default = default) := by
  constructor
  · intro value hv
    unfold _get_bool_env
    rw [hv]
    simp [List.mem_cons]
  · intro hn
    unfold _get_bool_env
    rw [hn]

theorem c9_witness :
    _get_bool_env (fun _ => some " TRUE ") "AUTO_CRAWL_ENABLED" false = true
    ∧ _get_bool_env (fun _ => some "enabled") "AUTO_CRAWL_ENABLED" true = false
    ∧ _get_bool_env (fun _ => some "0") "AUTO_CRAWL_ENABLED" true = false
    ∧ _get_bool_env (fun _ => none) "AUTO_CRAWL_ENABLED" true = true :=
  ⟨((c9_bool_env (fun _ => some " TRUE ") "AUTO_CRAWL_ENABLED" false).1
      " TRUE " rfl).mpr (Or.inr (Or.inl (by decide))),
   by decide, by decide,
   (c9_bool_env (fun _ => none) "AUTO_CRAWL_ENABLED" true).2 rfl⟩

theorem iterate_load_closed (doc : WechatDoc) (srcs : List SourceRecord)
    (s : SessDict) (h1 : doc.sources = some srcs) (h2 : doc.session = some s) :
    ∀ (k : Nat) (st : ConfigState),
      iterate_load (ConfigFS.ok doc) k st =
        ⟨st.WECHAT_SOURCES ++ (List.replicate k srcs).flatten,
         updN s k st.WECHAT_SESSION⟩ := by
  intro k
  induction k with
  | zero =>
    intro st
    simp [iterate_load, updN]
  | succ n ih =>
    intro st
    have hload : load_configurations (ConfigFS.ok doc) st =
        ⟨st.WECHAT_SOURCES ++ srcs, dupdate st.WECHAT_SESSION s⟩ := by
      simp [load_configurations, h1, h2]
    have hstep : iterate_load (ConfigFS.ok doc) (n + 1) st =
        iterate_load (ConfigFS.ok doc) n (load_configurations (ConfigFS.ok doc) st) := rfl
    rw [hstep, hload, ih]
    have hjoin : (List.replicate (n + 1) srcs).flatten =
        srcs ++ (List.replicate n srcs).flatten := by
      rw [List.replicate_succ, List.flatten_cons]
    simp [hjoin, List.append_assoc, updN]

/-- C10: `load_configurations` is not idempotent on the module state:
each call against the same parsed document appends the document's
sources to `WECHAT_SOURCES`, so `k` calls from the initial empty state
leave `k * n` records (the `k`-fold concatenation, duplicates included)
for a file with `n` sources, while each call merges the document's
session into `WECHAT_SESSION` via `dict.update`. -/
theorem c10_load_not_idempotent (doc : WechatDoc) (srcs : List SourceRecord)
    (s : SessDict) (h1 : doc.sources = some srcs) (h2 : doc.session = some s)
    (k : Nat) :
    (iterate_load (ConfigFS.ok doc) k ⟨[], []⟩).WECHAT_SOURCES =
      (List.replicate k srcs).flatten
    ∧ (iterate_load (ConfigFS.ok doc) k ⟨[], []⟩).WECHAT_SOURCES.length =
      k * srcs.length
    ∧ (iterate_load (ConfigFS.ok doc) k ⟨[], []⟩).WECHAT_SESSION = updN s k [] := by
  have hmain := iterate_load_closed doc srcs s h1 h2 k ⟨[], []⟩
  rw [hmain]
  refine ⟨by simp, ?_, rfl⟩
  simp [List.length_flatten, List.map_replicate, List.sum_replicate, smul_eq_mul]

theorem c10_witness :
    (⟨some [⟨"wechat_b1", "A", "b1", [], 5, 0⟩], some [("token", some "t")]⟩ :
        WechatDoc).sources = some [⟨"wechat_b1", "A", "b1", [], 5, 0⟩]
    ∧ (iterate_load
        (ConfigFS.ok ⟨some [⟨"wechat_b1", "A", "b1", [], 5, 0⟩],
          some [("token", some "t")]⟩) 2 ⟨[], []⟩).WECHAT_SOURCES =
      [⟨"wechat_b1", "A", "b1", [], 5, 0⟩, ⟨"wechat_b1", "A", "b1", [], 5, 0⟩]
    ∧ (iterate_load
        (ConfigFS.ok ⟨some [⟨"wechat_b1", "A", "b1", [], 5, 0⟩],
          some [("token", some "t")]⟩) 2 ⟨[], []⟩).WECHAT_SOURCES.length = 2 * 1
    ∧ (iterate_load
        (ConfigFS.ok ⟨some [⟨"wechat_b1", "A", "b1", [], 5, 0⟩],
          some [("token", some "t")]⟩) 2 ⟨[], []⟩).WECHAT_SESSION =
      [("token", some "t")] := by
  have h := c10_load_not_idempotent
    ⟨some [⟨"wechat_b1", "A", "b1", [], 5, 0⟩], some [("token", some "t")]⟩
    [⟨"wechat_b1", "A", "b1", [], 5, 0⟩] [("token", some "t")] rfl rfl 2
  refine ⟨rfl, ?_, ?_, ?_⟩
  · rw [h.1]
    rfl
  · rw [h.2.1]
    rfl
  · rw [h.2.2]
    rfl
